import Mathlib

/-!
Verification of the `mitre-agentic-langGraph-mcp` pipeline core against its
natural-language specification.

The development shallowly embeds the parts of the source that the claims
are about:

* `PyExc` — the Python exception classes the code raises or that the spec
  names (`RuntimeError`, `ValueError`, the builtin `ConnectionError`, and
  an open constructor for exceptions coming out of remote tool calls).
* `McpClient` — a functional embedding of `mitre_agentic/mcp_client.py`
  (`connect`, `_begin_call`, `_end_call`, `close`, `call_tool`), with the
  object fields carried in an explicit record and exceptions returned as
  values.  Teardown steps that may raise are passed as `Option PyExc`
  parameters so every control path of `close` is visible.
* `Lifecycle` — a small-step interleaving model of the same client for the
  temporal drain property: concurrent `call_tool`/`list_tools` entries and
  exits interleaved with the steps of one `close()` invocation.
* `Agents` — the per-item fan-out structure of `mapping_agent.map_techniques`,
  `mitigation_agent.enrich_with_mitigations` (semaphore-bounded
  `asyncio.gather(..., return_exceptions=True)`) and
  `intel_agent.enrich_with_groups_and_software` (a plain sequential loop).
* `Nodes` — the node functions of `workflows/nodes.py` relevant to the
  claims (`retry_async`, `mapping_node`, `intel_node`, `detection_node`,
  `detection_reasoning_node`, `report_node`) over an explicit
  `InvestigationState` record, with the remote/LLM agent call of each node
  passed in as an `Except PyExc` value.
* `Graph` — the conditional-edge predicate `should_run_detection_reasoning`
  of `workflows/graph.py` and the single-successor activation contract of
  `add_conditional_edges`.
* `StateMerge` — the accumulator reducers of `workflows/state.py`
  (list append and `merge_dicts`) and the per-field merge of updates.
-/

/-- Python exception values.  The client code raises `RuntimeError` and the
node/agent code raises `ValueError`; `connectionError` stands for the Python
builtin `ConnectionError` class (of which `RuntimeError` is not a subclass);
`otherError` stands for any other exception escaping a remote tool or LLM
call. -/
inductive PyExc where
  | runtimeError (msg : String)
  | valueError (msg : String)
  | connectionError (msg : String)
  | otherError (msg : String)
deriving DecidableEq, Repr

/-- Embedding of `str(e)` on a Python exception constructed with a single message. -/
def pyStr : PyExc → String
  | .runtimeError m => m
  | .valueError m => m
  | .connectionError m => m
  | .otherError m => m

/-- Python `isinstance(e, ConnectionError)`: only the builtin
`ConnectionError` class qualifies; `RuntimeError` is not a subclass of it. -/
def PyExc.isConnectionError : PyExc → Bool
  | .connectionError _ => true
  | _ => false

namespace McpClient

/-- The mutable fields of `MitreMcpClient` that the lifecycle logic reads and
writes.  `session` and `ctx` are `true` when the corresponding handle
(`_session`, `_ctx`/`_read`/`_write`) is not `None`. -/
structure CState where
  closing : Bool
  session : Bool
  ctx : Bool
  inflight : Nat
  noInflight : Bool
deriving DecidableEq, Repr

/-- Result of one `connect()` invocation: the client state afterwards, the
exception raised (if any), and whether an actual connection attempt (the
stdio/session establishment of lines 66-78) was performed. -/
structure ConnectResult where
  state : CState
  exc : Option PyExc
  attempted : Bool
deriving DecidableEq, Repr

/-- Embedding of `MitreMcpClient.connect` (mcp_client.py lines 54-78).  The fast path
returns when a session exists; the `_connect_lock` critical section
re-checks the session, rejects a closing client, and otherwise opens the
stdio context and session.  The lock serializes the critical section, so
concurrent callers compose as sequential invocations of this function. -/
def connect (s : CState) : ConnectResult :=
  if s.session then
    ⟨s, none, false⟩
  else
    -- under self._connect_lock
    if s.session then
      -- double-check after acquiring lock
      ⟨s, none, false⟩
    else if s.closing then
      ⟨s, some (.runtimeError "Client is closing; cannot connect."), false⟩
    else
      ⟨{ s with session := true, ctx := true }, none, true⟩

/-- Embedding of `MitreMcpClient._begin_call` (lines 132-138): reject when closing,
otherwise increment the in-flight counter and clear the drain event on the
0 to 1 transition. -/
def beginCall (s : CState) : Except PyExc CState :=
  if s.closing then
    .error (.runtimeError "Client is closing; refusing new requests.")
  else
    let inflight := s.inflight + 1
    .ok { s with inflight := inflight,
                 noInflight := if inflight = 1 then false else s.noInflight }

/-- Embedding of `MitreMcpClient._end_call` (lines 140-144): decrement the counter,
clamping at zero, and set the drain event when it reaches zero. -/
def endCall (s : CState) : CState :=
  let inflight := s.inflight - 1
  if inflight = 0 then { s with inflight := 0, noInflight := true }
  else { s with inflight := inflight }

/-- A teardown action performed during `close()`. -/
inductive TearEv where
  | sessionClosed
  | ctxClosed
deriving DecidableEq, Repr

/-- Result of one `close()` invocation: final client state, exception
propagated out of `close` (if any), and the teardown actions performed in
order. -/
structure CloseResult where
  state : CState
  exc : Option PyExc
  events : List TearEv
deriving DecidableEq, Repr

/-- The stdio-context teardown half of `close` (lines 98-104): the
`finally` clears `_ctx`, `_read` and `_write` even when
`self._ctx.__aexit__` raises. -/
def closeCtxStep (s : CState) (ctxExc : Option PyExc) (evs : List TearEv) :
    CloseResult :=
  if s.ctx then
    ⟨{ s with ctx := false }, ctxExc, evs ++ [.ctxClosed]⟩
  else
    ⟨s, none, evs⟩

/-- Embedding of `MitreMcpClient.close` (lines 80-104).  The `_close_lock` makes the body
run once; a second call finds `_closing` set and returns.  The
`_no_inflight.wait()` suspension completes only with no calls in flight and
does not change the fields (the interleaved wait is modelled in
`Lifecycle`).  `sessionExc`/`ctxExc` say whether the respective
`__aexit__` raises.  When the session teardown raises, its `finally`
clears `_session` and the exception propagates out of `close`, so the
stdio-context teardown is not reached. -/
def close (s : CState) (sessionExc ctxExc : Option PyExc) : CloseResult :=
  if s.closing then
    ⟨s, none, []⟩
  else
    let s1 : CState := { s with closing := true }
    -- await self._no_inflight.wait()
    if s1.session then
      let s2 : CState := { s1 with session := false }
      match sessionExc with
      | some e => ⟨s2, some e, [.sessionClosed]⟩
      | none => closeCtxStep s2 ctxExc [.sessionClosed]
    else
      closeCtxStep s1 ctxExc []

/-- Embedding of `MitreMcpClient.call_tool` (lines 117-130); `list_tools` (106-115) has
the same lifecycle structure.  `remote` is the outcome of the remote
`self._session.call_tool(...)` invocation; the `finally` runs `_end_call`
on both the normal and the raising path.  The pair returned is the client
state afterwards and the result raised or returned to the caller. -/
def callTool {V : Type} (s : CState) (remote : Except PyExc V) :
    CState × Except PyExc V :=
  let c := connect s
  match c.exc with
  | some e => (c.state, .error e)
  | none =>
    match beginCall c.state with
    | .error e => (c.state, .error e)
    | .ok s1 =>
      match remote with
      | .ok v => (endCall s1, .ok v)
      | .error e => (endCall s1, .error e)

end McpClient

namespace Lifecycle

/-- Program counter of the single `close()` invocation: not yet called,
`_closing` set (line 85), drain wait completed (line 88), session torn down
(lines 91-95), stdio context torn down and `close` returned (lines 98-104). -/
inductive ClosePc where
  | idle
  | marked
  | drained
  | sessionDown
  | done
deriving DecidableEq, Repr

/-- One interleaving configuration: the client fields of
`McpClient.CState` plus the progress of the `close()` invocation. -/
structure Config where
  closing : Bool
  inflight : Nat
  noInflight : Bool
  session : Bool
  ctx : Bool
  pc : ClosePc
deriving DecidableEq, Repr

/-- Atomic steps of the event-loop interleaving.  `beginCall`/`endCall` are
the `_begin_call`/`_end_call` of any concurrent `call_tool` or `list_tools`
task (a `beginCall` exists only when the client is not closing, since
`_begin_call` raises otherwise; an `endCall` exists only for a call in
flight).  The `close*` steps are the suspension points of `close()`:
marking `_closing`, the `_no_inflight.wait()` completing (enabled only
while the event is set), the session `__aexit__`, and the stdio context
`__aexit__` after which `close` returns. -/
inductive Step : Config → Config → Prop where
  | beginCall (c : Config) (h : c.closing = false) :
      Step c { c with inflight := c.inflight + 1,
                      noInflight := if c.inflight + 1 = 1 then false
                                    else c.noInflight }
  | endCall (c : Config) (h : 0 < c.inflight) :
      Step c { c with inflight := c.inflight - 1,
                      noInflight := if c.inflight - 1 = 0 then true
                                    else c.noInflight }
  | closeMark (c : Config) (h : c.pc = .idle) (h2 : c.closing = false) :
      Step c { c with closing := true, pc := .marked }
  | closeDrain (c : Config) (h : c.pc = .marked) (hev : c.noInflight = true) :
      Step c { c with pc := .drained }
  | closeSession (c : Config) (h : c.pc = .drained) :
      Step c { c with session := false, pc := .sessionDown }
  | closeCtx (c : Config) (h : c.pc = .sessionDown) :
      Step c { c with ctx := false, pc := .done }

/-- The connected, quiescent client: no calls in flight, drain event set,
session and transport open, `close` not yet invoked. -/
def init : Config :=
  ⟨false, 0, true, true, true, .idle⟩

/-- Configurations reachable from `init` by interleaved steps. -/
def Reachable (c : Config) : Prop :=
  Relation.ReflTransGen Step init c

/-- The lifecycle invariant: the drain event mirrors the in-flight counter
(cleared on the 0 to 1 transition, set on the transition to 0), `close`
progress implies `_closing` is set, and once the drain wait has completed
the in-flight count is zero. -/
def Inv (c : Config) : Prop :=
  (c.noInflight = true ↔ c.inflight = 0)
  ∧ (c.pc ≠ .idle → c.closing = true)
  ∧ ((c.pc = .drained ∨ c.pc = .sessionDown ∨ c.pc = .done) → c.inflight = 0)

end Lifecycle

namespace Agents

/-- A confirmed Technique Record as built by
`mapping_agent._fetch_technique_details` (mapping_agent.py lines 68-74) and
consumed by the downstream agents: identifier, display name, the STIX
object reference used for all subsequent lookups, and the optional
description.  The tactic list it also carries is opaque to every claim and
omitted. -/
structure Tech where
  id : String
  name : String
  stix_id : Option String
  description : Option String := none
deriving DecidableEq, Repr

/-- The technique sub-record the enrichment agents embed in their output
entries (`{"id": ..., "name": ..., "stix_id": ...}`). -/
structure TechRef where
  id : String
  name : String
  stix_id : String
deriving DecidableEq, Repr

/-- Output shape of `map_techniques` (mapping_agent.py lines 169-174). -/
structure MappingOut where
  domain : String
  confirmed_techniques : List Tech
  not_found : List String
  errors : List String
deriving DecidableEq, Repr

/-- Default of the `concurrency` parameter of `map_techniques`
(mapping_agent.py line 83): the capacity of the `asyncio.Semaphore` the
per-technique fetches are admitted through. -/
def map_techniques_default_concurrency : Nat := 10

/-- Embedding of `map_techniques` (mapping_agent.py lines 77-174).  `fetch` is the
per-technique `_fetch_technique_details` remote lookup (`Except.error` when
it raises, `Except.ok none` when the technique is not found).  The
`asyncio.gather(..., return_exceptions=True)` over the semaphore-wrapped
tasks yields one result per input id in input order; the loop of lines
149-161 then separates confirmed, not-found and failed items, appending
`str(exception)` for a failed item. -/
def map_techniques (fetch : String → Except PyExc (Option Tech))
    (domain : String) (technique_ids : List String) : MappingOut :=
  if technique_ids = [] then
    ⟨domain, [], [], []⟩
  else
    let results := technique_ids.map (fun tid => (tid, fetch tid))
    ⟨domain,
     results.filterMap (fun r =>
       match r.2 with | .ok (some t) => some t | _ => none),
     results.filterMap (fun r =>
       match r.2 with | .ok none => some r.1 | _ => none),
     results.filterMap (fun r =>
       match r.2 with | .error e => some (pyStr e) | _ => none)⟩

/-- One normalized mitigation record
(`mitigation_agent._fetch_mitigations_for_technique` lines 57-71). -/
structure MitRecord where
  attack_id : Option String
  name : Option String
  stix_id : Option String
  description : Option String
deriving DecidableEq, Repr

/-- The per-technique result of `_fetch_mitigations_for_technique`
(mitigation_agent.py lines 73-84). -/
structure MitEntry where
  technique : TechRef
  found : Bool
  count : Nat
  mitigations : List MitRecord
  formatted : String := ""
  message : String := ""
deriving DecidableEq, Repr

/-- Summary block of `enrich_with_mitigations`
(mitigation_agent.py lines 185-189). -/
structure MitSummary where
  total_techniques : Nat
  with_mitigations : Nat
  total_mitigations : Nat
deriving DecidableEq, Repr

/-- Output shape of `enrich_with_mitigations` (lines 181-190). -/
structure MitigationsOut where
  domain : String
  mitigations : List MitEntry
  errors : List String
  summary : MitSummary
deriving DecidableEq, Repr

/-- Default of the `concurrency` parameter of `enrich_with_mitigations`
(mitigation_agent.py line 93); the semaphore is built with
`max(1, concurrency)` (line 139). -/
def enrich_with_mitigations_default_concurrency : Nat := 10

/-- Embedding of `enrich_with_mitigations` (mitigation_agent.py lines 87-190).  `fetch`
is the per-technique `_fetch_mitigations_for_technique` lookup
(`Except.ok none` when the technique has no STIX id).  As in
`map_techniques`, the semaphore-bounded `gather(..., return_exceptions=True)`
yields one result per technique in input order; failed items become one
`errors` entry each, `None` results are skipped, and the summary is
computed over the remaining entries (lines 156-189). -/
def enrich_with_mitigations (fetch : Tech → Except PyExc (Option MitEntry))
    (domain : String) (confirmed_techniques : List Tech) : MitigationsOut :=
  if confirmed_techniques = [] then
    ⟨domain, [], [], ⟨0, 0, 0⟩⟩
  else
    let results := confirmed_techniques.map fetch
    let out := results.filterMap (fun r =>
      match r with | .ok (some m) => some m | _ => none)
    let errs := results.filterMap (fun r =>
      match r with | .error e => some (pyStr e) | _ => none)
    ⟨domain, out, errs,
     ⟨confirmed_techniques.length,
      (out.filter (fun m => 0 < m.count)).length,
      (out.map (fun m => m.count)).sum⟩⟩

/-- One enrichment entry of the intel agent
(intel_agent.py lines 65-75); the group and software payload items are
opaque to the engine, so their type is a parameter. -/
structure IntelEntry (α : Type) where
  technique : TechRef
  groups_using_technique : List α
  software_using_technique : List α
deriving DecidableEq, Repr

/-- Output shape of `enrich_with_groups_and_software`
(intel_agent.py line 77). -/
structure IntelOut (α : Type) where
  domain : String
  intel : List (IntelEntry α)
deriving DecidableEq, Repr

/-- The sequential `for` loop of `enrich_with_groups_and_software`
(intel_agent.py lines 32-75): techniques without a STIX id are skipped;
otherwise the two `client.call_tool` lookups run one after the other and
an exception from either propagates immediately, abandoning the remaining
techniques.  `callGroups`/`callSoftware` are the two remote lookups keyed
by the technique STIX id, already reduced to the extracted list
(lines 50-58). -/
def intelLoop {α : Type} (callGroups callSoftware : String → Except PyExc (List α))
    (max_items : Nat) :
    List Tech → List (IntelEntry α) → Except PyExc (List (IntelEntry α))
  | [], enriched => .ok enriched
  | t :: rest, enriched =>
    match t.stix_id with
    | none => intelLoop callGroups callSoftware max_items rest enriched
    | some sid =>
      match callGroups sid with
      | .error e => .error e
      | .ok groups =>
        match callSoftware sid with
        | .error e => .error e
        | .ok software =>
          intelLoop callGroups callSoftware max_items rest
            (enriched ++ [⟨⟨t.id, t.name, sid⟩,
              groups.take max_items, software.take max_items⟩])

/-- Embedding of `enrich_with_groups_and_software` (intel_agent.py lines 17-77).  Unlike
the mapping and mitigation agents there is no semaphore and no
`return_exceptions=True` here: the lookups are sequential and a raise
escapes the whole call.  `max_items` defaults to 8 (line 22) and only
truncates the returned lists. -/
def enrich_with_groups_and_software {α : Type}
    (callGroups callSoftware : String → Except PyExc (List α))
    (domain : String) (max_items : Nat) (confirmed_techniques : List Tech) :
    Except PyExc (IntelOut α) :=
  match intelLoop callGroups callSoftware max_items confirmed_techniques [] with
  | .error e => .error e
  | .ok enriched => .ok ⟨domain, enriched⟩

/-- The `detection` block of one detection-agent entry
(detection_agent.py lines 144-158): in `datacomponents` mode it carries
`total_datacomponents` (and the top component names, opaque here); in
`fallback_technique_detection` mode the `total_datacomponents` key is
absent, which `Option.none` models. -/
structure DetectionBlock where
  mode : String := ""
  total_datacomponents : Option Int := none
deriving DecidableEq, Repr

/-- One entry of the detection agent output list
(detection_agent.py lines 160-169); the conditional-edge predicate reads it
with `item.get("detection", {})`, so the block is optional here. -/
structure DetectionItem where
  technique : Option TechRef := none
  detection : Option DetectionBlock := none
deriving DecidableEq, Repr

/-- Output of `recommend_detection_telemetry` (detection_agent.py line 171);
the predicate reads it with `detections.get("detections", [])`. -/
structure DetectionsOut where
  domain : String := ""
  detections : Option (List DetectionItem) := none
deriving DecidableEq, Repr

/-- Acquire/release events on an `asyncio.Semaphore`. -/
inductive SemEv where
  | acquire
  | release
deriving DecidableEq, Repr

/-- Admissible traces of an `asyncio.Semaphore(cap)` as used by the
`async with sem` blocks of the mapping and mitigation agents: `n` is the
number of tasks currently inside the block, and an acquire is only enabled
while fewer than `cap` tasks hold the semaphore (the others are suspended
on `acquire`). -/
inductive SemTrace (cap : Nat) : Nat → List SemEv → Prop where
  | nil : SemTrace cap 0 []
  | acq (n : Nat) (tr : List SemEv) (h : SemTrace cap n tr) (hn : n < cap) :
      SemTrace cap (n + 1) (tr ++ [.acquire])
  | rel (n : Nat) (tr : List SemEv) (h : SemTrace cap (n + 1) tr) :
      SemTrace cap n (tr ++ [.release])

end Agents

namespace Nodes

/-- An Error Record as built by `add_error` (state.py lines 68-80):
node name, message, and the `datetime.now().isoformat()` timestamp. -/
structure ErrorRecord where
  agent : String
  error : String
  timestamp : String
deriving DecidableEq, Repr

/-- One entry of the detection-reasoning agent output list
(detection_reasoning_agent.py lines 262-295).  Only the shape of the list
matters to the claims; the per-entry payload beyond its `mode` tag is
opaque to the engine. -/
structure ReasoningEntry where
  mode : String
deriving DecidableEq, Repr

/-- Output of `reason_detection_with_llm_fallback`
(detection_reasoning_agent.py line 297): `{"detection_reasoning": out}`. -/
structure ReasoningOut where
  detection_reasoning : List ReasoningEntry
deriving DecidableEq, Repr

/-- The `report` dict of the report agent output; `report_node` reads
`report.get("markdown", "")` (nodes.py line 464). -/
structure ReportDict where
  markdown : Option String := none
deriving DecidableEq, Repr

/-- The report agent output; `report_node` reads
`report_out.get("report", {})` (nodes.py line 463). -/
structure ReportOut where
  report : Option ReportDict := none
deriving DecidableEq, Repr

/-- The fields of `InvestigationState` (state.py lines 12-40) the embedded
nodes read.  `mcp_client` is `some ()` when the shared client handle is in
the state.  For the dict-valued fields (`intel`, `detections`), `none`
models the Python-falsy case the nodes test with `if not ...`: the key
absent or holding the empty dict that `create_initial_state` installs.
`timings` is the association-list view of the timing dict. -/
structure InvState where
  incident_text : String := ""
  mcp_client : Option Unit := none
  triage_summary : Option String := none
  technique_ids : List String := []
  confirmed_techniques : List Agents.Tech := []
  intel : Option (Agents.IntelOut String) := none
  detections : Option Agents.DetectionsOut := none
  detection_reasoning : Option ReasoningOut := none
  timings : List (String × Nat) := []
deriving DecidableEq, Repr

/-- A partial-state update returned by a node.  Every field is optional:
`none` models the key being absent from the returned dict, so an update
that only reports an error has every other field `none`. -/
structure NodeUpdate where
  confirmed_techniques : Option (List Agents.Tech) := none
  intel : Option (Agents.IntelOut String) := none
  detections : Option Agents.DetectionsOut := none
  detection_reasoning : Option ReasoningOut := none
  report : Option ReportDict := none
  report_markdown : Option String := none
  completed_agents : Option (List String) := none
  errors : Option (List ErrorRecord) := none
  timings : Option (List (String × Nat)) := none
deriving DecidableEq, Repr

/-- Embedding of `add_error` (state.py lines 68-80): an update whose only key is
`errors`, holding a single record; `now` is the timestamp taken inside. -/
def add_error (agent_name error : String) (now : String) : NodeUpdate :=
  { errors := some [⟨agent_name, error, now⟩] }

/-- Embedding of `mark_agent_complete` (state.py lines 83-90): the singleton value of
the `completed_agents` key of the update the node spreads it into. -/
def mark_agent_complete (agent_name : String) : List String :=
  [agent_name]

/-- Python `d[k] = v` on a copy of the dict `d`, in association-list view:
replace the value when the key exists, append otherwise. -/
def dictInsert (d : List (String × Nat)) (k : String) (v : Nat) :
    List (String × Nat) :=
  if d.any (fun kv => kv.1 = k) then
    d.map (fun kv => if kv.1 = k then (k, v) else kv)
  else
    d ++ [(k, v)]

/-- Embedding of `add_timing` (state.py lines 93-101): copy the timing dict out of the
state and set the node duration in the copy. -/
def add_timing (st : InvState) (agent_name : String) (duration : Nat) :
    List (String × Nat) :=
  dictInsert st.timings agent_name duration

/-- The retry loop body of `retry_async` (nodes.py lines 27-44): the
attempts to go, the last exception captured.  A successful attempt returns
its value; after the final attempt the last exception is re-raised (the
sleeps of lines 32-36 only consume time).  `name` is `func.__name__`, used
in the defensive raise when no exception was captured. -/
def retryLoop {α : Type} (name : String) (f : Nat → Except PyExc α) :
    List Nat → Option PyExc → Except PyExc α
  | [], none => .error (.runtimeError (name ++ " failed with no exception captured"))
  | [], some e => .error e
  | a :: rest, _ =>
    match f a with
    | .ok v => .ok v
    | .error e => retryLoop name f rest (some e)

/-- Embedding of `retry_async` (nodes.py lines 22-47): run attempts `1..max_attempts`
of `f`, re-raising the last exception on exhaustion.  The `backoff`
parameter of the source only scales the inter-attempt sleeps and is
omitted. -/
def retry_async {α : Type} (max_attempts : Nat) (name : String)
    (f : Nat → Except PyExc α) : Except PyExc α :=
  retryLoop name f (List.range' 1 max_attempts) none

/-- Embedding of `mapping_node` (nodes.py lines 127-169), with the
`map_techniques` agent call passed in as its outcome; `duration` is the
wall-clock time of the attempt and `now` the error timestamp.  The
`raise ValueError("No techniques confirmed by mapping agent")` of line 153
is caught by the except handler of the node itself (line 167) and returned as an error
update with `str(e)` as message. -/
def mapping_node (st : InvState) (agent : Except PyExc Agents.MappingOut)
    (duration : Nat) (now : String) : NodeUpdate :=
  if st.technique_ids = [] then
    add_error "mapping" "No technique IDs from triage" now
  else if st.mcp_client = none then
    add_error "mapping" "No MCP client in state" now
  else
    match agent with
    | .error e => add_error "mapping" (pyStr e) now
    | .ok mapping =>
      let confirmed := mapping.confirmed_techniques
      if confirmed = [] then
        add_error "mapping" "No techniques confirmed by mapping agent" now
      else
        { confirmed_techniques := some confirmed,
          completed_agents := some (mark_agent_complete "mapping"),
          timings := some (add_timing st "mapping" duration) }

/-- Embedding of `intel_node` (nodes.py lines 174-212).  Note line 190: the
missing-client error record is built with `add_error(state, "mapping", ...)`,
naming `mapping` rather than the node itself. -/
def intel_node (st : InvState) (agent : Except PyExc (Agents.IntelOut String))
    (duration : Nat) (now : String) : NodeUpdate :=
  if st.confirmed_techniques = [] then
    add_error "intel" "No confirmed techniques" now
  else if st.mcp_client = none then
    add_error "mapping" "No MCP client in state" now
  else
    match agent with
    | .error e => add_error "intel" (pyStr e) now
    | .ok intel =>
      { intel := some intel,
        completed_agents := some (mark_agent_complete "intel"),
        timings := some (add_timing st "intel" duration) }

/-- Embedding of `detection_node` (nodes.py lines 220-258).  As in `intel_node`, line
236 builds the missing-client error record with
`add_error(state, "mapping", ...)`. -/
def detection_node (st : InvState) (agent : Except PyExc Agents.DetectionsOut)
    (duration : Nat) (now : String) : NodeUpdate :=
  if st.confirmed_techniques = [] then
    add_error "detection" "No confirmed techniques" now
  else if st.mcp_client = none then
    add_error "mapping" "No MCP client in state" now
  else
    match agent with
    | .error e => add_error "detection" (pyStr e) now
    | .ok detections =>
      { detections := some detections,
        completed_agents := some (mark_agent_complete "detection"),
        timings := some (add_timing st "detection" duration) }

/-- Embedding of `detection_reasoning_node` (nodes.py lines 319-360).  When the LLM
reasoning call raises, the `except` of lines 354-360 returns an update
holding an empty reasoning result plus the completion marker — no error
record and no timing entry. -/
def detection_reasoning_node (st : InvState)
    (agent : Except PyExc ReasoningOut) (duration : Nat) (now : String) :
    NodeUpdate :=
  if st.confirmed_techniques = [] ∨ st.detections = none then
    add_error "detection_reasoning" "Missing prerequisites" now
  else
    match agent with
    | .ok reasoning =>
      { detection_reasoning := some reasoning,
        completed_agents := some (mark_agent_complete "detection_reasoning"),
        timings := some (add_timing st "detection_reasoning" duration) }
    | .error _ =>
      { detection_reasoning := some ⟨[]⟩,
        completed_agents := some (mark_agent_complete "detection_reasoning") }

/-- Python truthiness of an optional string field: falsy when the key is
absent, `None`, or the empty string. -/
def strFalsy : Option String → Bool
  | none => true
  | some s => s == ""

/-- Embedding of `report_node` (nodes.py lines 417-483): the prerequisite check of lines
434-447 collects the missing field names in declaration order and returns a
single `report`-named error update; otherwise the LLM report call outcome
is unpacked (lines 463-464) or its exception converted by the except
handler of the node itself (line 481). -/
def report_node (st : InvState) (agent : Except PyExc ReportOut)
    (duration : Nat) (now : String) : NodeUpdate :=
  let missing :=
    (if strFalsy st.triage_summary then ["triage_summary"] else [])
    ++ (if st.confirmed_techniques = [] then ["confirmed_techniques"] else [])
    ++ (if st.intel = none then ["intel"] else [])
    ++ (if st.detections = none then ["detections"] else [])
  if missing ≠ [] then
    add_error "report" ("Missing required data: " ++ String.intercalate ", " missing) now
  else
    match agent with
    | .error e => add_error "report" (pyStr e) now
    | .ok report_out =>
      let report := report_out.report.getD {}
      let markdown := report.markdown.getD ""
      { report := some report,
        report_markdown := some markdown,
        completed_agents := some (mark_agent_complete "report"),
        timings := some (add_timing st "report" duration) }

end Nodes

namespace Graph

/-- The `for` loop of `should_run_detection_reasoning`
(graph.py lines 35-44): return `"detection_reasoning"` at the first entry
whose `detection` block reports `total_datacomponents == 0` (keys read with
`.get`, defaulting to `{}` and `0`); return `"visualization"` when no entry
does. -/
def routeLoop : List Agents.DetectionItem → String
  | [] => "visualization"
  | item :: rest =>
    let detection_data := item.detection.getD {}
    if detection_data.total_datacomponents.getD 0 = 0 then
      "detection_reasoning"
    else
      routeLoop rest

/-- Embedding of `should_run_detection_reasoning` (graph.py lines 24-44): read
`state.get("detections", {})` and `detections.get("detections", [])`, then
scan the list. -/
def should_run_detection_reasoning (st : Nodes.InvState) : String :=
  let detections := st.detections.getD {}
  let detection_list := detections.detections.getD []
  routeLoop detection_list

/-- The path map of the conditional edge registered on `detection`
(graph.py lines 93-100): both router values map to the node of the same
name. -/
def detection_path_map (route : String) : Option String :=
  if route = "detection_reasoning" then some "detection_reasoning"
  else if route = "visualization" then some "visualization"
  else none

/-- The successors activated after the `detection` node terminates, per the
`add_conditional_edges` contract of the graph library: the router runs once
on the merged state and exactly the mapped successor is scheduled; every
other potential successor is simply not scheduled. -/
def detection_successors (st : Nodes.InvState) : List String :=
  (detection_path_map (should_run_detection_reasoning st)).toList

end Graph

namespace StateMerge

/-- The reducer annotated on `completed_agents` and `errors`
(state.py lines 36-37): `lambda x, y: x + y`, Python list concatenation. -/
def list_append {α : Type} (x y : List α) : List α :=
  x ++ y

/-- Embedding of `merge_dicts` (state.py lines 8-10): `{**left, **right}` viewed as a
lookup table — on a key collision the right side wins. -/
def merge_dicts {α : Type} (left right : String → Option α) :
    String → Option α :=
  fun k => match right k with
    | some v => some v
    | none => left k

/-- The accumulator and step-output portion of the merged state: the two
append-reduced lists, the `merge_dicts`-reduced timing map, and the
step-output fields under the default overwrite reducer, viewed as a map
from field name to value. -/
structure AccState (τ ω : Type) where
  completed_agents : List String
  errors : List Nodes.ErrorRecord
  timings : String → Option τ
  outputs : String → Option ω

/-- A node update against `AccState`: entries to append, timing keys to
merge, and step-output fields to overwrite (absent keys are `none`). -/
structure MergeUpdate (τ ω : Type) where
  completed_agents : List String := []
  errors : List Nodes.ErrorRecord := []
  timings : String → Option τ := fun _ => none
  outputs : String → Option ω := fun _ => none

/-- Apply one node update to the merged state with the declared reducer of each
field: list append for `completed_agents` and `errors`, `merge_dicts`
for `timings`, overwrite-if-present for step-output fields. -/
def applyUpdate {τ ω : Type} (s : AccState τ ω) (u : MergeUpdate τ ω) :
    AccState τ ω :=
  ⟨list_append s.completed_agents u.completed_agents,
   list_append s.errors u.errors,
   merge_dicts s.timings u.timings,
   fun k => match u.outputs k with
     | some v => some v
     | none => s.outputs k⟩

end StateMerge

namespace Lifecycle

theorem inv_init : Inv init := by
  refine ⟨by simp [init], by simp [init], by simp [init]⟩

theorem inv_step {c c' : Config} (hInv : Inv c) (h : Step c c') : Inv c' := by
  obtain ⟨h1, h2, h3⟩ := hInv
  cases h with
  | beginCall hcl =>
    refine ⟨?_, ?_, ?_⟩ <;> simp only at *
    · split
      · simp
      · simp only [h1]
        omega
    · intro hpc
      exact absurd (h2 hpc) (by simp [hcl])
    · intro hpc
      have := h2 (by rcases hpc with h | h | h <;> simp [h])
      exact absurd this (by simp [hcl])
  | endCall hfl =>
    refine ⟨?_, ?_, ?_⟩ <;> simp only at *
    · split
      · simp
        omega
      · simp only [h1]
        omega
    · exact h2
    · intro hpc
      have := h3 hpc
      omega
  | closeMark hpc hcl =>
    exact ⟨h1, by simp, by intro hp; rcases hp with h | h | h <;> simp [hpc] at h⟩
  | closeDrain hpc hev =>
    refine ⟨h1, by intro _; exact h2 (by simp [hpc]), by intro _; exact h1.mp hev⟩
  | closeSession hpc =>
    refine ⟨h1, by intro _; exact h2 (by simp [hpc]),
      by intro _; exact h3 (by simp [hpc])⟩
  | closeCtx hpc =>
    refine ⟨h1, by intro _; exact h2 (by simp [hpc]),
      by intro _; exact h3 (by simp [hpc])⟩

theorem inv_reachable {c : Config} (h : Reachable c) : Inv c := by
  induction h with
  | refl => exact inv_init
  | tail _ hstep ih => exact inv_step ih hstep

end Lifecycle

/-- C1: In every interleaving of concurrent `call_tool`/`list_tools`
invocations with a `close()` invocation, once the drain wait of `close()`
has completed (and in particular at every teardown step and when `close()`
returns, `pc = done`) the in-flight call count is zero: `close()` never
returns while a call is in flight, and every call that entered before
shutdown began has run to completion (its `_end_call` has executed) before
the session and transport are torn down. -/
theorem close_drains_inflight_before_teardown (c : Lifecycle.Config)
    (h : Lifecycle.Reachable c) :
    (c.pc = .done → c.inflight = 0)
    ∧ ((c.pc = .drained ∨ c.pc = .sessionDown) → c.inflight = 0) := by
  obtain ⟨_, _, h3⟩ := Lifecycle.inv_reachable h
  exact ⟨fun hd => h3 (Or.inr (Or.inr hd)),
    fun hd => h3 (by rcases hd with h | h <;> simp [h])⟩

/-- Witness for C1: a concrete interleaving in which a call begins and ends
and `close()` then runs to completion; the final configuration is reachable
and the theorem applies to it. -/
theorem close_drains_inflight_before_teardown_witness :
    Lifecycle.Reachable ⟨true, 0, true, false, false, .done⟩
    ∧ (⟨true, 0, true, false, false, .done⟩ : Lifecycle.Config).inflight = 0 := by
  have h1 : Lifecycle.Step Lifecycle.init ⟨false, 1, false, true, true, .idle⟩ := by
    have := Lifecycle.Step.beginCall Lifecycle.init rfl
    simpa [Lifecycle.init] using this
  have h2 : Lifecycle.Step ⟨false, 1, false, true, true, .idle⟩
      ⟨false, 0, true, true, true, .idle⟩ := by
    have := Lifecycle.Step.endCall ⟨false, 1, false, true, true, .idle⟩ (by decide)
    simpa using this
  have h3 : Lifecycle.Step ⟨false, 0, true, true, true, .idle⟩
      ⟨true, 0, true, true, true, .marked⟩ := by
    have := Lifecycle.Step.closeMark ⟨false, 0, true, true, true, .idle⟩ rfl rfl
    simpa using this
  have h4 : Lifecycle.Step ⟨true, 0, true, true, true, .marked⟩
      ⟨true, 0, true, true, true, .drained⟩ := by
    have := Lifecycle.Step.closeDrain ⟨true, 0, true, true, true, .marked⟩ rfl rfl
    simpa using this
  have h5 : Lifecycle.Step ⟨true, 0, true, true, true, .drained⟩
      ⟨true, 0, true, false, true, .sessionDown⟩ := by
    have := Lifecycle.Step.closeSession ⟨true, 0, true, true, true, .drained⟩ rfl
    simpa using this
  have h6 : Lifecycle.Step ⟨true, 0, true, false, true, .sessionDown⟩
      ⟨true, 0, true, false, false, .done⟩ := by
    have := Lifecycle.Step.closeCtx ⟨true, 0, true, false, true, .sessionDown⟩ rfl
    simpa using this
  have hr : Lifecycle.Reachable ⟨true, 0, true, false, false, .done⟩ :=
    Relation.ReflTransGen.head h1 (Relation.ReflTransGen.head h2
      (Relation.ReflTransGen.head h3 (Relation.ReflTransGen.head h4
        (Relation.ReflTransGen.head h5 (Relation.ReflTransGen.head h6
          Relation.ReflTransGen.refl)))))
  exact ⟨hr, (close_drains_inflight_before_teardown _ hr).1 rfl⟩

/-- C5 counterexample: `connect()` invoked after shutdown has begun (the
closing flag set, no session) raises
`RuntimeError("Client is closing; cannot connect.")`, and `RuntimeError`
is not a Python `ConnectionError`, so the claimed failure type is wrong. -/
theorem connect_after_close_raises_runtime_error :
    McpClient.connect ⟨true, false, false, 0, true⟩
      = ⟨⟨true, false, false, 0, true⟩,
         some (.runtimeError "Client is closing; cannot connect."), false⟩
    ∧ (PyExc.runtimeError "Client is closing; cannot connect.").isConnectionError
        = false := by
  exact ⟨rfl, rfl⟩

/-- C5 (amended): `connect()` is idempotent and establishes the single
underlying session exactly once — a call finding an existing session is a
no-op via the fast path, the lock-guarded double-check makes a caller
serialized after a successful connect perform no second attempt — and
`connect()` called after shutdown has begun fails with the closing
`RuntimeError` (the `ClosedError` of the error taxonomy), not with
`ConnectionError`. -/
theorem connect_idempotent_once_rejects_when_closing (s : McpClient.CState) :
    (s.session = true → McpClient.connect s = ⟨s, none, false⟩)
    ∧ (s.session = false → s.closing = false →
        (McpClient.connect s).attempted = true
        ∧ (McpClient.connect s).state.session = true
        ∧ (McpClient.connect s).exc = none)
    ∧ ((McpClient.connect s).exc = none →
        McpClient.connect (McpClient.connect s).state
          = ⟨(McpClient.connect s).state, none, false⟩)
    ∧ (s.session = false → s.closing = true →
        McpClient.connect s
          = ⟨s, some (.runtimeError "Client is closing; cannot connect."), false⟩) := by
  obtain ⟨cl, se, cx, fl, ev⟩ := s
  cases se <;> cases cl <;> simp [McpClient.connect]

/-- Witness for C5: the contract evaluated at a connected client, at a
fresh client, and at a closing client. -/
theorem connect_idempotent_once_rejects_when_closing_witness :
    McpClient.connect ⟨false, true, true, 0, true⟩
      = ⟨⟨false, true, true, 0, true⟩, none, false⟩
    ∧ (McpClient.connect ⟨false, false, false, 0, true⟩).attempted = true
    ∧ McpClient.connect ⟨true, false, false, 0, true⟩
      = ⟨⟨true, false, false, 0, true⟩,
         some (.runtimeError "Client is closing; cannot connect."), false⟩ :=
  ⟨(connect_idempotent_once_rejects_when_closing _).1 rfl,
   ((connect_idempotent_once_rejects_when_closing _).2.1 rfl rfl).1,
   (connect_idempotent_once_rejects_when_closing _).2.2.2 rfl rfl⟩

/-- C6 counterexample: when the session `__aexit__` raises during
`close()`, the exception propagates out of `close()` and the stdio
transport teardown is skipped — the `_ctx` handle is still set on that
exit path, refuting release-on-every-exit-path. -/
theorem close_session_raise_skips_ctx_release :
    (McpClient.close ⟨false, true, true, 0, true⟩
       (some (.runtimeError "session teardown failed")) none).state.ctx = true
    ∧ (McpClient.close ⟨false, true, true, 0, true⟩
       (some (.runtimeError "session teardown failed")) none).exc
        = some (.runtimeError "session teardown failed") :=
  ⟨rfl, rfl⟩

/-- C6 (amended): during `close()` teardown happens in strict order — the
MCP session first, the stdio transport second — and each teardown step
releases its own handle even if that step raises; but an exception raised
by the session teardown propagates out of `close()` and skips the
transport teardown, leaving the transport handle unreleased on that exit
path. -/
theorem close_teardown_order_and_release (s : McpClient.CState)
    (h : s.closing = false) (e1 e2 : Option PyExc) :
    (McpClient.close s e1 e2).state.session = false
    ∧ List.Sublist (McpClient.close s e1 e2).events
        [McpClient.TearEv.sessionClosed, McpClient.TearEv.ctxClosed]
    ∧ (e1 = none → (McpClient.close s e1 e2).state.ctx = false)
    ∧ (s.session = true → ∀ er, e1 = some er →
        (McpClient.close s e1 e2).exc = some er
        ∧ (McpClient.close s e1 e2).state.ctx = s.ctx) := by
  obtain ⟨cl, se, cx, fl, ev⟩ := s
  subst h
  cases se <;> cases cx <;> cases e1 <;>
    simp [McpClient.close, McpClient.closeCtxStep]

/-- Witness for C6: a clean close of a fully connected client releases
both handles in order. -/
theorem close_teardown_order_and_release_witness :
    (McpClient.close ⟨false, true, true, 0, true⟩ none none).state.session = false
    ∧ List.Sublist (McpClient.close ⟨false, true, true, 0, true⟩ none none).events
        [McpClient.TearEv.sessionClosed, McpClient.TearEv.ctxClosed]
    ∧ (McpClient.close ⟨false, true, true, 0, true⟩ none none).state.ctx = false := by
  obtain ⟨h1, h2, h3, _⟩ :=
    close_teardown_order_and_release ⟨false, true, true, 0, true⟩ rfl none none
  exact ⟨h1, h2, h3 rfl⟩

/-- C7: a tool call attempted after shutdown has begun is rejected with the
closing `RuntimeError` raised to the immediate caller (from `_begin_call`
when the session is still up, from `connect` when it is already gone) —
reject, not block: the call returns the error, admits no in-flight call
and changes no client state, and the error is not swallowed. -/
theorem call_after_close_rejected {V : Type} (s : McpClient.CState)
    (remote : Except PyExc V) (h : s.closing = true) :
    McpClient.callTool s remote
      = (s, .error (.runtimeError
          (if s.session then "Client is closing; refusing new requests."
           else "Client is closing; cannot connect."))) := by
  obtain ⟨cl, se, cx, fl, ev⟩ := s
  subst h
  cases se <;>
    simp [McpClient.callTool, McpClient.connect, McpClient.beginCall]

/-- Witness for C7: a concrete call against a closing client with a live
session is rejected with the `_begin_call` closing error. -/
theorem call_after_close_rejected_witness :
    McpClient.callTool (V := Nat) ⟨true, true, true, 0, true⟩ (.ok 7)
      = (⟨true, true, true, 0, true⟩,
         .error (.runtimeError "Client is closing; refusing new requests.")) := by
  have := call_after_close_rejected (V := Nat) ⟨true, true, true, 0, true⟩ (.ok 7) rfl
  simpa using this

theorem retryLoop_const_error {α : Type} (name : String)
    (f : Nat → Except PyExc α) (e : PyExc) (l : List Nat)
    (h : ∀ i ∈ l, f i = .error e) :
    Nodes.retryLoop name f l (some e) = .error e := by
  induction l with
  | nil => rfl
  | cons a rest ih =>
    have ha : f a = .error e := h a (List.mem_cons_self a rest)
    simp only [Nodes.retryLoop, ha]
    exact ih (fun i hi => h i (List.mem_cons_of_mem a hi))

/-- C2 counterexample: `retry_async` with max attempts 2 around an
always-raising step function re-raises the exception on exhaustion — the
scheduler receives a raise, not an update consisting of an Error Record. -/
theorem retry_exhaustion_reraises :
    Nodes.retry_async 2 "step_fn"
      (fun _ => (.error (.valueError "boom") : Except PyExc Nodes.NodeUpdate))
      = .error (.valueError "boom")
    ∧ (Nodes.retry_async 2 "step_fn"
        (fun _ => (.error (.valueError "boom") : Except PyExc Nodes.NodeUpdate))).isOk
      = false :=
  ⟨rfl, rfl⟩

/-- C2 (amended): on exhaustion `retry_async` re-raises the last exception
into the scheduler rather than returning an update; the conversion of a
failure into a single Error Record naming the node is done by the node
exception handler inside the node body (here `mapping_node`), whose returned error
update the wrapper passes through unchanged on its first attempt, so the
run continues past the failed node with exactly one Error Record for it. -/
theorem retry_reraises_and_node_body_converts {α : Type}
    (n : Nat) (hn : 0 < n) (name : String) (f : Nat → Except PyExc α)
    (e : PyExc) (hf : ∀ i, f i = .error e)
    (st : Nodes.InvState) (hid : st.technique_ids ≠ [])
    (hcl : st.mcp_client ≠ none)
    (e2 : PyExc) (duration : Nat) (now : String) :
    Nodes.retry_async n name f = .error e
    ∧ Nodes.mapping_node st (.error e2) duration now
        = Nodes.add_error "mapping" (pyStr e2) now
    ∧ Nodes.retry_async 3 "mapping_node"
        (fun _ => .ok (Nodes.mapping_node st (.error e2) duration now))
        = .ok (Nodes.add_error "mapping" (pyStr e2) now)
    ∧ (Nodes.add_error "mapping" (pyStr e2) now).errors
        = some [⟨"mapping", pyStr e2, now⟩] := by
  have hmap : Nodes.mapping_node st (.error e2) duration now
      = Nodes.add_error "mapping" (pyStr e2) now := by
    simp [Nodes.mapping_node, hid, hcl]
  refine ⟨?_, hmap, ?_, rfl⟩
  · obtain ⟨m, rfl⟩ : ∃ m, n = m + 1 := ⟨n - 1, by omega⟩
    unfold Nodes.retry_async
    rw [List.range'_succ]
    simp only [Nodes.retryLoop, hf 1]
    exact retryLoop_const_error _ f e _ (fun i _ => hf i)
  · simp [Nodes.retry_async, Nodes.retryLoop, List.range'_succ, hmap]

theorem semTrace_le {cap n : Nat} {tr : List Agents.SemEv}
    (h : Agents.SemTrace cap n tr) : n ≤ cap := by
  induction h with
  | nil => exact Nat.zero_le cap
  | acq n tr h hn ih => omega
  | rel n tr h ih => omega

theorem map_techniques_errors_eq (fetch : String → Except PyExc (Option Agents.Tech))
    (domain : String) (l : List String) :
    (Agents.map_techniques fetch domain l).errors
      = l.filterMap (fun tid =>
          match fetch tid with | .error e => some (pyStr e) | _ => none) := by
  by_cases hl : l = []
  · subst hl; rfl
  · simp only [Agents.map_techniques, if_neg hl, List.filterMap_map]
    rfl

theorem map_techniques_confirmed_eq
    (fetch : String → Except PyExc (Option Agents.Tech))
    (domain : String) (l : List String) :
    (Agents.map_techniques fetch domain l).confirmed_techniques
      = l.filterMap (fun tid =>
          match fetch tid with | .ok (some t) => some t | _ => none) := by
  by_cases hl : l = []
  · subst hl; rfl
  · simp only [Agents.map_techniques, if_neg hl, List.filterMap_map]
    rfl

theorem enrich_with_mitigations_errors_eq
    (fetch : Agents.Tech → Except PyExc (Option Agents.MitEntry))
    (domain : String) (l : List Agents.Tech) :
    (Agents.enrich_with_mitigations fetch domain l).errors
      = l.filterMap (fun t =>
          match fetch t with | .error e => some (pyStr e) | _ => none) := by
  by_cases hl : l = []
  · subst hl; rfl
  · simp only [Agents.enrich_with_mitigations, if_neg hl, List.filterMap_map]
    rfl

theorem enrich_with_mitigations_out_eq
    (fetch : Agents.Tech → Except PyExc (Option Agents.MitEntry))
    (domain : String) (l : List Agents.Tech) :
    (Agents.enrich_with_mitigations fetch domain l).mitigations
      = l.filterMap (fun t =>
          match fetch t with | .ok (some m) => some m | _ => none) := by
  by_cases hl : l = []
  · subst hl; rfl
  · simp only [Agents.enrich_with_mitigations, if_neg hl, List.filterMap_map]
    rfl

/-- C3 counterexample: in the intel agent the exception of a single item does
not become a failed entry in the output list — it aborts the whole step,
so the second technique is never processed and the call returns the raise
itself.  (The intel agent also has no admission limiter at all: its
lookups are sequential.) -/
theorem intel_failure_aborts_other_items :
    Agents.enrich_with_groups_and_software
      (fun sid => if sid = "attack-pattern--a"
        then .error (.otherError "tool call failed") else .ok ["G0016"])
      (fun _ => (.ok ["S0002"] : Except PyExc (List String)))
      "enterprise" 5
      [⟨"T1059.001", "PowerShell", some "attack-pattern--a", none⟩,
       ⟨"T1053.005", "Scheduled Task", some "attack-pattern--b", none⟩]
      = .error (.otherError "tool call failed") := by
  rfl

/-- C3 (amended): the mapping and mitigation agents bound their fan-out
with an `asyncio.Semaphore` admission limiter (capacity defaulting to 10;
no trace admits more holders than the capacity) and isolate per-item
failure — one failing item contributes exactly one entry to the `errors`
list of the step itself while the contribution of every other item is
unchanged.  The
intel agent, by contrast, runs its lookups sequentially with no limiter
and no per-item isolation: an exception raised by the lookup of the first technique
propagates out of the whole step. -/
theorem fanout_bounded_isolated_mapping_mitigation_not_intel
    (cap n : Nat) (tr : List Agents.SemEv) (htr : Agents.SemTrace cap n tr)
    (fetch : String → Except PyExc (Option Agents.Tech)) (domain : String)
    (ids1 ids2 : List String) (x : String) (e : PyExc) (hx : fetch x = .error e)
    (mfetch : Agents.Tech → Except PyExc (Option Agents.MitEntry))
    (ts1 ts2 : List Agents.Tech) (t : Agents.Tech) (em : PyExc)
    (hm : mfetch t = .error em)
    (callG callS : String → Except PyExc (List String))
    (tt : Agents.Tech) (rest : List Agents.Tech) (sid : String)
    (hsid : tt.stix_id = some sid) (ei : PyExc) (hg : callG sid = .error ei)
    (max_items : Nat) :
    Agents.map_techniques_default_concurrency = 10
    ∧ Agents.enrich_with_mitigations_default_concurrency = 10
    ∧ n ≤ cap
    ∧ (Agents.map_techniques fetch domain (ids1 ++ [x] ++ ids2)).errors
        = (Agents.map_techniques fetch domain ids1).errors
          ++ [pyStr e] ++ (Agents.map_techniques fetch domain ids2).errors
    ∧ (Agents.map_techniques fetch domain (ids1 ++ [x] ++ ids2)).confirmed_techniques
        = (Agents.map_techniques fetch domain ids1).confirmed_techniques
          ++ (Agents.map_techniques fetch domain ids2).confirmed_techniques
    ∧ (Agents.enrich_with_mitigations mfetch domain (ts1 ++ [t] ++ ts2)).errors
        = (Agents.enrich_with_mitigations mfetch domain ts1).errors
          ++ [pyStr em] ++ (Agents.enrich_with_mitigations mfetch domain ts2).errors
    ∧ (Agents.enrich_with_mitigations mfetch domain (ts1 ++ [t] ++ ts2)).mitigations
        = (Agents.enrich_with_mitigations mfetch domain ts1).mitigations
          ++ (Agents.enrich_with_mitigations mfetch domain ts2).mitigations
    ∧ Agents.enrich_with_groups_and_software callG callS domain max_items
        (tt :: rest) = .error ei := by
  refine ⟨rfl, rfl, semTrace_le htr, ?_, ?_, ?_, ?_, ?_⟩
  · simp [map_techniques_errors_eq, List.filterMap_append, hx]
  · simp [map_techniques_confirmed_eq, List.filterMap_append, hx]
  · simp [enrich_with_mitigations_errors_eq, List.filterMap_append, hm]
  · simp [enrich_with_mitigations_out_eq, List.filterMap_append, hm]
  · simp [Agents.enrich_with_groups_and_software, Agents.intelLoop, hsid, hg]

/-- Witness for C3 (amended): a one-holder semaphore trace under capacity
10, one failing technique between two successful ones in the mapping
agent, and a failing first lookup in the intel agent. -/
theorem fanout_bounded_isolated_witness :
    (1 : Nat) ≤ 10
    ∧ (Agents.map_techniques
        (fun tid => if tid = "T9999" then .error (.otherError "fetch failed")
          else .ok (some ⟨tid, "n", some "s", none⟩))
        "enterprise" (["T1059.001"] ++ ["T9999"] ++ ["T1053.005"])).errors
      = (Agents.map_techniques
          (fun tid => if tid = "T9999" then .error (.otherError "fetch failed")
            else .ok (some ⟨tid, "n", some "s", none⟩))
          "enterprise" ["T1059.001"]).errors
        ++ ["fetch failed"]
        ++ (Agents.map_techniques
            (fun tid => if tid = "T9999" then .error (.otherError "fetch failed")
              else .ok (some ⟨tid, "n", some "s", none⟩))
            "enterprise" ["T1053.005"]).errors
    ∧ Agents.enrich_with_groups_and_software
        (fun _ => (.error (.otherError "tool call failed") : Except PyExc (List String)))
        (fun _ => .ok [])
        "enterprise" 8
        [⟨"T1059.001", "PowerShell", some "attack-pattern--a", none⟩]
      = .error (.otherError "tool call failed") := by
  obtain ⟨_, _, h3, h4, _, _, _, h8⟩ :=
    fanout_bounded_isolated_mapping_mitigation_not_intel
      10 1 [.acquire] (by simpa using Agents.SemTrace.acq 0 [] .nil (by decide))
      (fun tid => if tid = "T9999" then .error (.otherError "fetch failed")
        else .ok (some ⟨tid, "n", some "s", none⟩))
      "enterprise" ["T1059.001"] ["T1053.005"] "T9999"
      (.otherError "fetch failed") (by rfl)
      (fun t => if t.id = "T1" then .error (.otherError "mit failed") else .ok none)
      [] [] ⟨"T1", "n", some "s", none⟩ (.otherError "mit failed") (by rfl)
      (fun _ => .error (.otherError "tool call failed")) (fun _ => .ok [])
      ⟨"T1059.001", "PowerShell", some "attack-pattern--a", none⟩ [] "attack-pattern--a"
      (by rfl) (.otherError "tool call failed") (by rfl) 8
  exact ⟨h3, h4, h8⟩

/-- Witness for C2 (amended): the re-raise and the node-body conversion at
a concrete always-failing step function and a concrete state. -/
theorem retry_reraises_and_node_body_converts_witness :
    Nodes.retry_async 2 "mapping_node"
      (fun _ => (.error (.otherError "agent down") : Except PyExc Nodes.NodeUpdate))
      = .error (.otherError "agent down")
    ∧ Nodes.mapping_node
        { technique_ids := ["T1059.001"], mcp_client := some () }
        (.error (.otherError "agent down")) 1 "2026-01-01T00:00:00"
      = Nodes.add_error "mapping" "agent down" "2026-01-01T00:00:00" := by
  obtain ⟨h1, h2, _, _⟩ :=
    retry_reraises_and_node_body_converts (α := Nodes.NodeUpdate)
      2 (by decide) "mapping_node"
      (fun _ => .error (.otherError "agent down")) (.otherError "agent down")
      (fun _ => rfl)
      { technique_ids := ["T1059.001"], mcp_client := some () }
      (by decide) (by decide)
      (.otherError "agent down") 1 "2026-01-01T00:00:00"
  exact ⟨h1, h2⟩

theorem routeLoop_all_pos (l : List Agents.DetectionItem)
    (h : ∀ item ∈ l, 0 < ((item.detection.getD {}).total_datacomponents.getD 0)) :
    Graph.routeLoop l = "visualization" := by
  induction l with
  | nil => rfl
  | cons item rest ih =>
    have hi := h item (List.mem_cons_self item rest)
    simp only [Graph.routeLoop]
    rw [if_neg (by omega)]
    exact ih (fun i hmem => h i (List.mem_cons_of_mem item hmem))

theorem routeLoop_exists_zero (l : List Agents.DetectionItem)
    (h : ∃ item ∈ l, ((item.detection.getD {}).total_datacomponents.getD 0) = 0) :
    Graph.routeLoop l = "detection_reasoning" := by
  induction l with
  | nil =>
    obtain ⟨i, hi, _⟩ := h
    exact absurd hi (List.not_mem_nil i)
  | cons item rest ih =>
    by_cases hz : ((item.detection.getD {}).total_datacomponents.getD 0) = 0
    · simp [Graph.routeLoop, hz]
    · simp only [Graph.routeLoop, if_neg hz]
      apply ih
      obtain ⟨i, hi, hzz⟩ := h
      rcases List.mem_cons.mp hi with rfl | hmem
      · exact absurd hzz hz
      · exact ⟨i, hmem, hzz⟩

/-- C4: after the detection node terminates, the conditional edge
activates exactly one successor.  If every entry of the detections list
reports a strictly positive `total_datacomponents` count, the router
returns `visualization` and `detection_reasoning` is not among the
scheduled successors; if some entry reports a zero count, exactly the
`detection_reasoning` successor is activated and `visualization` is not
scheduled. -/
theorem conditional_edge_single_successor (st : Nodes.InvState) :
    ((∀ item ∈ ((st.detections.getD {}).detections).getD [],
        0 < ((item.detection.getD {}).total_datacomponents.getD 0)) →
      Graph.detection_successors st = ["visualization"]
      ∧ "detection_reasoning" ∉ Graph.detection_successors st)
    ∧ ((∃ item ∈ ((st.detections.getD {}).detections).getD [],
        ((item.detection.getD {}).total_datacomponents.getD 0) = 0) →
      Graph.detection_successors st = ["detection_reasoning"]
      ∧ "visualization" ∉ Graph.detection_successors st) := by
  constructor
  · intro h
    have hr : Graph.should_run_detection_reasoning st = "visualization" :=
      routeLoop_all_pos _ h
    rw [Graph.detection_successors, hr]
    exact ⟨rfl, by decide⟩
  · intro h
    have hr : Graph.should_run_detection_reasoning st = "detection_reasoning" :=
      routeLoop_exists_zero _ h
    rw [Graph.detection_successors, hr]
    exact ⟨rfl, by decide⟩

/-- Witness for C4: with all entries reporting positive counts only
`visualization` is scheduled; with one zero-count entry only
`detection_reasoning` is. -/
theorem conditional_edge_single_successor_witness :
    Graph.detection_successors
      (⟨"", none, none, [], [], none,
        some ⟨"enterprise", some [⟨none, some ⟨"datacomponents", some 3⟩⟩]⟩,
        none, []⟩ : Nodes.InvState)
      = ["visualization"]
    ∧ "detection_reasoning" ∉ Graph.detection_successors
      (⟨"", none, none, [], [], none,
        some ⟨"enterprise", some [⟨none, some ⟨"datacomponents", some 3⟩⟩]⟩,
        none, []⟩ : Nodes.InvState)
    ∧ Graph.detection_successors
      (⟨"", none, none, [], [], none,
        some ⟨"enterprise", some [⟨none, some ⟨"datacomponents", some 0⟩⟩]⟩,
        none, []⟩ : Nodes.InvState)
      = ["detection_reasoning"] := by
  have h1 := (conditional_edge_single_successor
    (⟨"", none, none, [], [], none,
      some ⟨"enterprise", some [⟨none, some ⟨"datacomponents", some 3⟩⟩]⟩,
      none, []⟩ : Nodes.InvState)).1
    (by decide)
  have h2 := (conditional_edge_single_successor
    (⟨"", none, none, [], [], none,
      some ⟨"enterprise", some [⟨none, some ⟨"datacomponents", some 0⟩⟩]⟩,
      none, []⟩ : Nodes.InvState)).2
    (by decide)
  exact ⟨h1.1, h1.2, h2.1⟩

/-- C8, failing input: `intel_node` (and `detection_node`) invoked on a
state that has confirmed techniques but no MCP client handle returns an
update whose single Error Record names `mapping`, not the failing node
itself — the copy-pasted `add_error(state, "mapping", ...)` of nodes.py
lines 190 and 236 — while contributing no step-output field. -/
theorem missing_client_error_names_mapping :
    (Nodes.intel_node
      { confirmed_techniques := [⟨"T1059.001", "PowerShell", some "attack-pattern--a", none⟩],
        mcp_client := none }
      (.ok ⟨"enterprise", []⟩) 0 "2026-01-01T00:00:00").errors
      = some [⟨"mapping", "No MCP client in state", "2026-01-01T00:00:00"⟩]
    ∧ (Nodes.intel_node
      { confirmed_techniques := [⟨"T1059.001", "PowerShell", some "attack-pattern--a", none⟩],
        mcp_client := none }
      (.ok ⟨"enterprise", []⟩) 0 "2026-01-01T00:00:00").intel = none
    ∧ (Nodes.detection_node
      { confirmed_techniques := [⟨"T1059.001", "PowerShell", some "attack-pattern--a", none⟩],
        mcp_client := none }
      (.ok {}) 0 "2026-01-01T00:00:00").errors
      = some [⟨"mapping", "No MCP client in state", "2026-01-01T00:00:00"⟩]
    ∧ (Nodes.detection_node
      { confirmed_techniques := [⟨"T1059.001", "PowerShell", some "attack-pattern--a", none⟩],
        mcp_client := none }
      (.ok {}) 0 "2026-01-01T00:00:00").detections = none :=
  ⟨rfl, rfl, rfl, rfl⟩

/-- C9 counterexample: with two node updates whose step-output fields are
disjoint (both empty), merging in the two orders yields different merged
states — the `completed_agents` list-append reducer is order-sensitive, so
the final merged state is not invariant under reordering of sibling
merges. -/
theorem merge_order_not_invariant :
    (StateMerge.applyUpdate (StateMerge.applyUpdate
        (⟨[], [], fun _ => none, fun _ => none⟩ : StateMerge.AccState Nat Nat)
        { completed_agents := ["intel"] })
        { completed_agents := ["detection"] }).completed_agents
      = ["intel", "detection"]
    ∧ (StateMerge.applyUpdate (StateMerge.applyUpdate
        (⟨[], [], fun _ => none, fun _ => none⟩ : StateMerge.AccState Nat Nat)
        { completed_agents := ["detection"] })
        { completed_agents := ["intel"] }).completed_agents
      = ["detection", "intel"]
    ∧ (["intel", "detection"] : List String) ≠ ["detection", "intel"] :=
  ⟨rfl, rfl, by decide⟩

/-- C9 (amended): the accumulator reducers lose no entries under
reordering — for any two node updates with disjoint timing keys and
disjoint step-output fields, merging them in either order yields a state
containing every list entry and every timing entry contributed by both,
and the two merge orders agree up to order of the appended lists: the
`completed_agents` and `errors` lists are permutations of each other
(their order follows merge order) and the timing and step-output maps are
equal. -/
theorem reducers_lose_no_entries_commute_up_to_order {τ ω : Type}
    (s : StateMerge.AccState τ ω) (u1 u2 : StateMerge.MergeUpdate τ ω)
    (hT : ∀ k, u1.timings k = none ∨ u2.timings k = none)
    (hO : ∀ k, u1.outputs k = none ∨ u2.outputs k = none) :
    (∀ x, x ∈ u1.completed_agents ∨ x ∈ u2.completed_agents →
      x ∈ (StateMerge.applyUpdate (StateMerge.applyUpdate s u1) u2).completed_agents
      ∧ x ∈ (StateMerge.applyUpdate (StateMerge.applyUpdate s u2) u1).completed_agents)
    ∧ (∀ r, r ∈ u1.errors ∨ r ∈ u2.errors →
      r ∈ (StateMerge.applyUpdate (StateMerge.applyUpdate s u1) u2).errors
      ∧ r ∈ (StateMerge.applyUpdate (StateMerge.applyUpdate s u2) u1).errors)
    ∧ (∀ k v, u1.timings k = some v ∨ u2.timings k = some v →
      (StateMerge.applyUpdate (StateMerge.applyUpdate s u1) u2).timings k = some v
      ∧ (StateMerge.applyUpdate (StateMerge.applyUpdate s u2) u1).timings k = some v)
    ∧ ((StateMerge.applyUpdate (StateMerge.applyUpdate s u1) u2).completed_agents).Perm
        ((StateMerge.applyUpdate (StateMerge.applyUpdate s u2) u1).completed_agents)
    ∧ ((StateMerge.applyUpdate (StateMerge.applyUpdate s u1) u2).errors).Perm
        ((StateMerge.applyUpdate (StateMerge.applyUpdate s u2) u1).errors)
    ∧ (StateMerge.applyUpdate (StateMerge.applyUpdate s u1) u2).timings
        = (StateMerge.applyUpdate (StateMerge.applyUpdate s u2) u1).timings
    ∧ (StateMerge.applyUpdate (StateMerge.applyUpdate s u1) u2).outputs
        = (StateMerge.applyUpdate (StateMerge.applyUpdate s u2) u1).outputs := by
  refine ⟨?_, ?_, ?_, ?_, ?_, ?_, ?_⟩
  · intro x hx
    constructor <;>
      simp only [StateMerge.applyUpdate, StateMerge.list_append, List.mem_append] <;>
      tauto
  · intro r hr
    constructor <;>
      simp only [StateMerge.applyUpdate, StateMerge.list_append, List.mem_append] <;>
      tauto
  · intro k v hkv
    rcases hkv with h1 | h2
    · rcases hT k with hA | hA
      · simp [hA] at h1
      · constructor <;> simp [StateMerge.applyUpdate, StateMerge.merge_dicts, h1, hA]
    · rcases hT k with hA | hA
      · constructor <;> simp [StateMerge.applyUpdate, StateMerge.merge_dicts, h2, hA]
      · simp [hA] at h2
  · simp only [StateMerge.applyUpdate, StateMerge.list_append]
    rw [List.append_assoc, List.append_assoc]
    exact List.Perm.append_left _ List.perm_append_comm
  · simp only [StateMerge.applyUpdate, StateMerge.list_append]
    rw [List.append_assoc, List.append_assoc]
    exact List.Perm.append_left _ List.perm_append_comm
  · funext k
    rcases hT k with h | h <;>
      simp only [StateMerge.applyUpdate, StateMerge.merge_dicts, h]
  · funext k
    rcases hO k with h | h <;>
      simp only [StateMerge.applyUpdate, h]

/-- Witness for C9 (amended): two concrete sibling updates with disjoint
timing keys and no step-output fields merge to the same timing map and to
permuted completion lists. -/
theorem reducers_lose_no_entries_witness :
    (StateMerge.applyUpdate (StateMerge.applyUpdate
        (⟨[], [], fun _ => none, fun _ => none⟩ : StateMerge.AccState Nat Nat)
        { completed_agents := ["intel"],
          timings := fun k => if k = "intel" then some 2 else none })
        { completed_agents := ["detection"],
          timings := fun k => if k = "detection" then some 3 else none }).timings
      = (StateMerge.applyUpdate (StateMerge.applyUpdate
        (⟨[], [], fun _ => none, fun _ => none⟩ : StateMerge.AccState Nat Nat)
        { completed_agents := ["detection"],
          timings := fun k => if k = "detection" then some 3 else none })
        { completed_agents := ["intel"],
          timings := fun k => if k = "intel" then some 2 else none }).timings
    ∧ ((StateMerge.applyUpdate (StateMerge.applyUpdate
        (⟨[], [], fun _ => none, fun _ => none⟩ : StateMerge.AccState Nat Nat)
        { completed_agents := ["intel"],
          timings := fun k => if k = "intel" then some 2 else none })
        { completed_agents := ["detection"],
          timings := fun k => if k = "detection" then some 3 else none }).completed_agents).Perm
      ((StateMerge.applyUpdate (StateMerge.applyUpdate
        (⟨[], [], fun _ => none, fun _ => none⟩ : StateMerge.AccState Nat Nat)
        { completed_agents := ["detection"],
          timings := fun k => if k = "detection" then some 3 else none })
        { completed_agents := ["intel"],
          timings := fun k => if k = "intel" then some 2 else none }).completed_agents) := by
  obtain ⟨_, _, _, h4, _, h6, _⟩ :=
    reducers_lose_no_entries_commute_up_to_order
      (⟨[], [], fun _ => none, fun _ => none⟩ : StateMerge.AccState Nat Nat)
      { completed_agents := ["intel"],
        timings := fun k => if k = "intel" then some 2 else none }
      { completed_agents := ["detection"],
        timings := fun k => if k = "detection" then some 3 else none }
      (by
        intro k
        by_cases hk : k = "intel"
        · subst hk; right; rfl
        · left; simp [hk])
      (fun k => Or.inl rfl)
  exact ⟨h6, h4⟩

/-- C10: when the LLM reasoning call inside `detection_reasoning_node`
raises on a state with its prerequisites present, the node returns an
update that sets `detection_reasoning` to the empty result and appends
`detection_reasoning` to `completed_agents`, recording no Error Record and
no timing entry. -/
theorem reasoning_llm_failure_completes_empty (st : Nodes.InvState)
    (h1 : st.confirmed_techniques ≠ []) (h2 : st.detections ≠ none)
    (e : PyExc) (duration : Nat) (now : String) :
    Nodes.detection_reasoning_node st (.error e) duration now
      = { detection_reasoning := some ⟨[]⟩,
          completed_agents := some ["detection_reasoning"] }
    ∧ (Nodes.detection_reasoning_node st (.error e) duration now).errors = none
    ∧ (Nodes.detection_reasoning_node st (.error e) duration now).timings = none := by
  have h : Nodes.detection_reasoning_node st (.error e) duration now
      = { detection_reasoning := some ⟨[]⟩,
          completed_agents := some ["detection_reasoning"] } := by
    simp [Nodes.detection_reasoning_node, h1, h2, Nodes.mark_agent_complete]
  exact ⟨h, by rw [h], by rw [h]⟩

/-- Witness for C10: the failure path evaluated on a concrete state whose
prerequisites are present. -/
theorem reasoning_llm_failure_completes_empty_witness :
    Nodes.detection_reasoning_node
      { confirmed_techniques := [⟨"T1059.001", "PowerShell", some "attack-pattern--a", none⟩],
        detections := some { domain := "enterprise", detections := some [] } }
      (.error (.otherError "llm unavailable")) 4 "2026-01-01T00:00:00"
      = { detection_reasoning := some ⟨[]⟩,
          completed_agents := some ["detection_reasoning"] } :=
  (reasoning_llm_failure_completes_empty
    { confirmed_techniques := [⟨"T1059.001", "PowerShell", some "attack-pattern--a", none⟩],
      detections := some { domain := "enterprise", detections := some [] } }
    (by decide) (by decide)
    (.otherError "llm unavailable") 4 "2026-01-01T00:00:00").1
